import Mathlib

/-!
Verification development for the PubMed-Central RAG repository.

Shallow embedding of the repository's three source files:
  * `src/main.py`           — `chunk_text`, `create_new_vector_store` (batch upsert loop)
  * `src/data_loader/data_loader.py` — `load_pubmed_data`
  * `src/rag/rag_pipeline.py` — `PubMedRAG` (`initialize`, `query`, `query_stream`,
    `_extract_tool_outputs`) and the module constant `RECURSION_LIMIT`.

Python strings are modelled as `String`/`List Char`, dictionaries with fixed keys as
structures with `Option` fields, exceptions as `Except`/`Option` error slots, and the
external LLM / vector-store collaborators as explicit function parameters.
-/

namespace RagRepo

/-! ### Chunker: `chunk_text` from `src/main.py` lines 28-43 -/

/-- Python whitespace characters recognised by `str.strip()` (the ASCII ones; the
texts in the examples below only contain ASCII). -/
def isPySpace (c : Char) : Bool :=
  c = ' ' || c = '\t' || c = '\n' || c = '\x0d' || c = '\x0b' || c = '\x0c'

/-- Python `s.strip()` on a list of characters: drop whitespace from both ends. -/
def pyStrip (l : List Char) : List Char :=
  ((l.dropWhile isPySpace).reverse.dropWhile isPySpace).reverse

/-- The loop body of `chunk_text`: `for i in range(0, text_length, step)` with
`chunk = text[i : i + size]`, appending `chunk` iff `chunk.strip()` is non-empty.
`fuel` bounds the iteration count; `text.length + 1` is always enough when
`step ≥ 1` (the offset `i` grows by `step` every iteration). -/
def chunkLoop (text : List Char) (size step : Nat) : Nat → Nat → List (List Char)
  | 0, _ => []
  | fuel + 1, i =>
    if i < text.length then
      (if pyStrip ((text.drop i).take size) = [] then []
       else [(text.drop i).take size]) ++ chunkLoop text size step fuel (i + step)
    else []

/-- `chunk_text(text, chunk_size, overlap)` from `src/main.py`, on `List Char`.
The stride is `chunk_size - overlap`.  (For `overlap ≥ chunk_size` Python's
`range` would raise `ValueError` or yield nothing; we return `[]` there — every
claim below assumes `overlap < chunk_size`.) -/
def chunk_text_chars (text : List Char) (chunk_size overlap : Nat) : List (List Char) :=
  let step := chunk_size - overlap
  if step = 0 then [] else chunkLoop text chunk_size step (text.length + 1) 0

/-- `chunk_text` on `String`s, defaults in the source are `chunk_size=5000`, `overlap=100`. -/
def chunk_text (text : String) (chunk_size overlap : Nat) : List String :=
  (chunk_text_chars text.data chunk_size overlap).map String.mk

/-- C6 counterexample: on the code, chunking `"ABCDEFGHIJ"` with `size=4`,
`overlap=1` does NOT yield only the three chunks the spec's example lists:
the loop visits offset 9 as well (`range(0, 10, 3) = 0,3,6,9`) and the slice
`"J"` survives stripping. -/
theorem chunk_text_example_counterexample :
    chunk_text "ABCDEFGHIJ" 4 1 ≠ ["ABCD", "DEFG", "GHIJ"] := by decide

/-- C6 (amended): chunking `"ABCDEFGHIJ"` with `size=4`, `overlap=1` yields exactly
the four chunks `["ABCD","DEFG","GHIJ","J"]`, taken at offsets 0, 3, 6 and 9. -/
theorem chunk_text_example :
    chunk_text "ABCDEFGHIJ" 4 1 = ["ABCD", "DEFG", "GHIJ", "J"] := by decide

/-- C7 counterexample: `"ABC"` is non-empty after trimming and strictly shorter than
`size = 4`, and `overlap = 2 < 4` is valid, yet chunking yields TWO chunks
`["ABC","C"]` (the loop revisits offset `size - overlap = 2 < len`), not one. -/
theorem chunk_text_short_counterexample :
    (pyStrip "ABC".data ≠ [] ∧ "ABC".data.length < 4 ∧ 2 < 4) ∧
      chunk_text "ABC" 4 2 ≠ ["ABC"] := by
  exact ⟨⟨by decide, by decide, by decide⟩, by decide⟩

/-- C7 (amended): for every text that is non-empty after trimming and of length at
most the stride `size - overlap` (with `0 ≤ overlap < size`), chunking yields
exactly one chunk — the whole text — and no others. -/
theorem chunk_text_short_single (text : String) (size overlap : Nat)
    (hov : overlap < size) (hne : pyStrip text.data ≠ [])
    (hlen : text.data.length ≤ size - overlap) :
    chunk_text text size overlap = [text] := by
  have hstep : 0 < size - overlap := by omega
  have hLpos : 0 < text.data.length := by
    rcases hd : text.data with _ | ⟨a, l⟩
    · rw [hd] at hne; simp [pyStrip] at hne
    · simp [hd]
  obtain ⟨L, hL⟩ : ∃ L, text.data.length = L + 1 :=
    ⟨text.data.length - 1, by omega⟩
  have htake : text.data.take size = text.data :=
    List.take_of_length_le (by omega)
  have h1 : chunkLoop text.data size (size - overlap) (text.data.length + 1) 0
      = [text.data] := by
    rw [hL]
    rw [chunkLoop]
    rw [if_pos (by omega)]
    rw [List.drop_zero, htake, if_neg hne]
    rw [chunkLoop]
    rw [if_neg (by omega)]
    simp
  show (chunk_text_chars text.data size overlap).map String.mk = [text]
  simp only [chunk_text_chars]
  rw [if_neg (by omega), h1]
  rfl

/-- Witness for C7 (amended) at the concrete input `"Hi"`, `size=4`, `overlap=2`:
all hypotheses hold (`2 < 4`, `"Hi"` survives trimming, `2 ≤ 4 - 2`) and the
result is the single chunk `["Hi"]`. -/
theorem chunk_text_short_single_witness : chunk_text "Hi" 4 2 = ["Hi"] :=
  chunk_text_short_single "Hi" 4 2 (by decide) (by decide) (by decide)

/-! ### Data loader: `load_pubmed_data` from `src/data_loader/data_loader.py` lines 8-34 -/

/-- One record of the external dataset as consumed by `load_pubmed_data`
(the fields it reads from each `item`). -/
structure PubMedItem where
  char_url : String
  topic_name : String
  all_txt : String
  topic_lesson_url : String
deriving DecidableEq

/-- One formatted document returned by `load_pubmed_data`. -/
structure PubMedDoc where
  id : String
  title : String
  content : String
  contents : String
  PMID : String
deriving DecidableEq

/-- `load_pubmed_data(start_idx=500, num_samples=100)`: loads the whole dataset
(`load_dataset(..., streaming=True)` materialised by `list(dataset)`), maps every
item to the document shape, and on any exception returns `[]`.  The `dataset`
argument models the external dataset feed (`Except` for a failing download).
Note the source never reads `start_idx` or `num_samples`. -/
def load_pubmed_data (dataset : Except String (List PubMedItem))
    (start_idx num_samples : Int) : List PubMedDoc :=
  match dataset with
  | .error _ => []
  | .ok items =>
      items.map (fun item =>
        PubMedDoc.mk item.char_url item.topic_name item.all_txt
          item.topic_lesson_url item.char_url)

/-- C9: the result of `load_pubmed_data` is independent of its `start_idx` and
`num_samples` arguments — for any two pairs of argument values the same underlying
dataset yields the same document list, because the parameters are never used. -/
theorem load_pubmed_data_ignores_args (dataset : Except String (List PubMedItem))
    (a b c d : Int) :
    load_pubmed_data dataset a b = load_pubmed_data dataset c d := rfl

/-! ### Ingestion: the batch upsert loop of `create_new_vector_store`
(`src/main.py` lines 118-129) -/

/-- Python `data[i:i+bs] for i in range(0, len(data), bs)`: split a list into
consecutive batches of size `bs` (last one possibly shorter).  Structurally
recursive on a fuel that `data.length` always covers for `bs ≥ 1`. -/
def batchSplitLoop (bs : Nat) : Nat → List α → List (List α)
  | 0, _ => []
  | _, [] => []
  | fuel + 1, a :: rest => (a :: rest).take bs :: batchSplitLoop bs fuel ((a :: rest).drop bs)

/-- The batches submitted by `create_new_vector_store` for record list `data`:
`batch = data[i : i + batch_size]` for `i in range(0, len(data), batch_size)`. -/
def pyBatches (bs : Nat) (data : List α) : List (List α) :=
  if bs = 0 then [] else batchSplitLoop bs data.length data

/-- The upsert loop of `create_new_vector_store`: each batch is upserted inside its
own `try/except`, a failure is printed and the loop continues with the next batch.
`fails j` models whether the external store raises on batch `j` (0-based);
returns (batches attempted, indices of failed batches, records successfully stored). -/
def ingestLoop (fails : Nat → Bool) :
    List (List α) → Nat → List Nat → List α → Nat × List Nat × List α
  | [], idx, failed, store => (idx, failed.reverse, store)
  | b :: rest, idx, failed, store =>
    if fails idx then ingestLoop fails rest (idx + 1) (idx :: failed) store
    else ingestLoop fails rest (idx + 1) failed (store ++ b)

/-- The batch-upsert phase of `create_new_vector_store(supabase_instance, ...)`:
`batch_size = 50`, batches submitted sequentially starting from batch index 0. -/
def create_new_vector_store_run (fails : Nat → Bool) (data : List α) :
    Nat × List Nat × List α :=
  ingestLoop fails (pyBatches 50 data) 0 [] []

theorem ingestLoop_spec (fails : Nat → Bool) :
    ∀ (bs : List (List α)) (idx : Nat) (failed : List Nat) (store : List α),
    ingestLoop fails bs idx failed store =
      (idx + bs.length,
       failed.reverse ++ ((bs.enumFrom idx).filter (fun p => fails p.1)).map Prod.fst,
       store ++ ((((bs.enumFrom idx).filter (fun p => !(fails p.1))).map Prod.snd)).flatten)
  | [], idx, failed, store => by simp [ingestLoop]
  | b :: rest, idx, failed, store => by
    have ih := ingestLoop_spec fails rest
    cases hf : fails idx with
    | true =>
        simp [ingestLoop, hf, ih, List.enumFrom]
        omega
    | false =>
        simp [ingestLoop, hf, ih, List.enumFrom]
        omega

/-- C8: during ingestion every batch is attempted regardless of earlier failures —
the attempted count equals the number of batches, the failed indices are exactly
the batches on which the store raised, and the records stored are exactly the
concatenation of all non-failing batches (so a failure on batch `j` does not
abort batches `j+1..N`, and partial success is possible). -/
theorem ingestion_batch_isolated (fails : Nat → Bool) (data : List α) :
    (create_new_vector_store_run fails data).1 = (pyBatches 50 data).length ∧
    (create_new_vector_store_run fails data).2.1 =
      (((pyBatches 50 data).enum.filter (fun p => fails p.1)).map Prod.fst) ∧
    (create_new_vector_store_run fails data).2.2 =
      ((((pyBatches 50 data).enum.filter (fun p => !(fails p.1))).map Prod.snd).flatten) := by
  have h := ingestLoop_spec fails (pyBatches 50 data) 0 [] []
  rw [create_new_vector_store_run, h]
  exact ⟨by omega, by simp [List.enum], by simp [List.enum]⟩

/-! ### RAG pipeline: `src/rag/rag_pipeline.py` -/

/-- `RECURSION_LIMIT = 2 * 5 + 1` (`src/rag/rag_pipeline.py` line 17): the
recursion-limit configuration passed by `PubMedRAG.query` to `rag_chain.stream`.
In the langgraph execution model each agent (LLM) step and each tool step is one
super-step, so a limit of `2*N + 1` admits at most `N` tool invocations. -/
def RECURSION_LIMIT : Nat := 2 * 5 + 1

/-- The langgraph library's default `recursion_limit` (25).  `PubMedRAG.query_stream`
calls `self.rag_chain.invoke({...})` with NO config argument (line 143), so this
library default — not `RECURSION_LIMIT` — governs the streaming mode's agent run. -/
def DEFAULT_RECURSION_LIMIT : Nat := 25

/-- Outcome of one agent run: either a final answer or a `GraphRecursionError`
raised because the super-step limit was exhausted; both record how many tool
invocations were issued. -/
inductive AgentOutcome where
  | answered (text : String) (toolCalls : Nat)
  | recursionError (toolCalls : Nat)
deriving DecidableEq

/-- Number of tool invocations issued during the run. -/
def AgentOutcome.toolCalls : AgentOutcome → Nat
  | .answered _ n => n
  | .recursionError n => n

/-- The ReAct agent loop built by `create_react_agent` (line 108), driven by the
controlling LLM `decide` (at round `r`: `some q` selects a tool with query `q`,
`none` declares readiness to answer with final text `answer`).  `fuel` is the
remaining super-step budget: an agent step costs one unit, a tool step another;
when the budget is exhausted before the agent declares readiness, langgraph
raises `GraphRecursionError`. -/
def reactRun (decide : Nat → Option String) (answer : String) : Nat → Nat → AgentOutcome
  | 0, r => .recursionError r
  | 1, r =>
    match decide r with
    | none => .answered answer r
    | some _ => .recursionError r
  | fuel + 2, r =>
    match decide r with
    | none => .answered answer r
    | some _ => reactRun decide answer fuel (r + 1)

/-- Errors that escape `PubMedRAG.query` / `query_stream` to the caller: only the
`ValueError("RAG chain not initialized. Call initialize() first.")` raised before
the `try` block (the spec's `NotInitializedError`). -/
inductive QueryError where
  | notInitialized
deriving DecidableEq

/-- The error-message head used by both `except` handlers (lines 133 and 162):
`f"Error generating response: {str(e)}"`. -/
def errorTag : String := "Error generating response: "

/-- `PubMedRAG.query` (lines 118-133): after the initialization check, iterate the
chain's stream accumulating `chunk["content"]`; any exception during the loop
(modelled by the `Option String` error slot of `chainStream`, which discards the
partial accumulation exactly as the `except` branch does) is caught and returned
as an error string. -/
def query (initialized : Bool) (chainStream : List String × Option String) :
    Except QueryError String :=
  if initialized then
    match chainStream.2 with
    | some e => .ok (errorTag ++ e)
    | none => .ok (String.join chainStream.1)
  else .error .notInitialized

/-- One intermediate step record as inspected by `_extract_tool_outputs`
(lines 52-63): the dict keys it probes, each possibly absent.
`action_input` stands for `step["action"]["action_input"]` when the `action`
key is present with that sub-key. -/
structure StepRecord where
  tool_input : Option String
  action_input : Option String
  tool_output : Option String
  observation : Option String
deriving DecidableEq

/-- The agent result dict returned by `rag_chain.invoke`, as probed by
`_extract_tool_outputs`: it may or may not contain the `"intermediate_steps"`
key (other keys are never read). -/
structure AgentResult where
  intermediate_steps : Option (List StepRecord)
deriving DecidableEq

/-- The text contributed by one step inside the loop of `_extract_tool_outputs`:
`if "tool_input" in step: ... elif "action" in step and ...`, then
`if "tool_output" in step: ... elif "observation" in step: ...`. -/
def extractStep (s : StepRecord) : String :=
  (match s.tool_input with
   | some q => "Tool query: " ++ q ++ "\n"
   | none =>
     match s.action_input with
     | some q => "Tool query: " ++ q ++ "\n"
     | none => "") ++
  (match s.tool_output with
   | some o => "Tool output: " ++ o ++ "\n\n"
   | none =>
     match s.observation with
     | some o => "Tool output: " ++ o ++ "\n\n"
     | none => "")

/-- `PubMedRAG._extract_tool_outputs(agent_result)` (lines 47-65): starts from the
empty string and accumulates only when `"intermediate_steps" in agent_result`. -/
def extract_tool_outputs (agent_result : AgentResult) : String :=
  match agent_result.intermediate_steps with
  | none => ""
  | some steps => String.join (steps.map extractStep)

/-- Leading part of the summarization f-string of `query_stream` (lines 148-154),
up to the inserted question. -/
def sumPromptPre : String :=
  "\n            Based on the following information collected about the query: \""

/-- Part of the summarization f-string between the question and the collected info. -/
def sumPromptMid : String := "\"\n            \n            "

/-- Trailing part of the summarization f-string after the collected info. -/
def sumPromptPost : String :=
  "\n            \n            Please provide a concise and accurate summary that directly answers the user's question.\n            "

/-- The composed summarization prompt of `query_stream`. -/
def summarizationPrompt (question collected_info : String) : String :=
  sumPromptPre ++ question ++ sumPromptMid ++ collected_info ++ sumPromptPost

/-- Observable trace of one `query_stream` run: the fragments yielded to the
caller, the prompts sent to `self.llm.stream`, and how often `rag_chain.invoke`
was called. -/
structure StreamRun where
  fragments : List String
  prompts : List String
  agentCalls : Nat
deriving DecidableEq

/-- `PubMedRAG.query_stream` (lines 135-162): after the initialization check,
`rag_chain.invoke` gathers evidence non-incrementally (`invoke`, `Except` for an
exception), `_extract_tool_outputs` builds the transcript, one summarization
prompt is streamed through `self.llm.stream` (`llm` maps a prompt to the yielded
chunks plus an optional exception raised mid-iteration), and each chunk's
`.content` is yielded; any exception is caught and surfaced as one yielded
`f"Error generating response: {e}"` fragment after whatever was already yielded. -/
def query_stream (initialized : Bool) (invoke : Except String AgentResult)
    (llm : String → List String × Option String) (question : String) :
    Except QueryError StreamRun :=
  if initialized then
    match invoke with
    | .error e => .ok (StreamRun.mk [errorTag ++ e] [] 1)
    | .ok agent_result =>
      let collected_info := extract_tool_outputs agent_result
      let prompt := summarizationPrompt question collected_info
      match llm prompt with
      | (chunks, none) => .ok (StreamRun.mk chunks [prompt] 1)
      | (chunks, some e) => .ok (StreamRun.mk (chunks ++ [errorTag ++ e]) [prompt] 1)
  else .error .notInitialized

/-- The agent stream consumed by `query`, derived from the ReAct loop run with the
configured `RECURSION_LIMIT`: on a normal finish the final answer text is the
streamed content; on limit exhaustion the iteration raises `GraphRecursionError`. -/
def chainStreamRun (decide : Nat → Option String) (answer : String) :
    List String × Option String :=
  match reactRun decide answer RECURSION_LIMIT 0 with
  | .answered t _ => ([t], none)
  | .recursionError _ => ([], some "GraphRecursionError")

/-- `query` on an initialized pipeline, wired to the ReAct loop. -/
def queryAnswer (decide : Nat → Option String) (answer : String) :
    Except QueryError String :=
  query true (chainStreamRun decide answer)

/-- Tool invocations issued by the agent run of `query` (limit `RECURSION_LIMIT`). -/
def queryToolCalls (decide : Nat → Option String) (answer : String) : Nat :=
  (reactRun decide answer RECURSION_LIMIT 0).toolCalls

/-- Tool invocations issued by the agent run of `query_stream`: `invoke` is called
without a config, so the library default limit applies. -/
def queryStreamToolCalls (decide : Nat → Option String) (answer : String) : Nat :=
  (reactRun decide answer DEFAULT_RECURSION_LIMIT 0).toolCalls

/-- An LLM controller that requests one more tool invocation at every round. -/
def greedyDecide : Nat → Option String := fun _ => some "tool query"

theorem reactRun_toolCalls_le (decide : Nat → Option String) (answer : String) :
    ∀ (fuel r : Nat), (reactRun decide answer fuel r).toolCalls ≤ r + fuel / 2
  | 0, r => by simp [reactRun, AgentOutcome.toolCalls]
  | 1, r => by
    cases h : decide r <;> simp [reactRun, h, AgentOutcome.toolCalls]
  | fuel + 2, r => by
    cases h : decide r with
    | none => simp [reactRun, h, AgentOutcome.toolCalls]
    | some q =>
      have ih := reactRun_toolCalls_le decide answer fuel (r + 1)
      simp only [reactRun, h]
      omega

/-- A yielded fragment carries the error indicator iff the `except` handlers' message
head `"Error generating response: "` starts it (checked on the character lists). -/
def hasErrorTag (s : String) : Bool := errorTag.data.isPrefixOf s.data

theorem list_isPrefixOf_append (l₁ l₂ : List Char) : l₁.isPrefixOf (l₁ ++ l₂) = true := by
  induction l₁ with
  | nil => simp [List.isPrefixOf]
  | cons a as ih => simp [List.isPrefixOf, ih]

theorem hasErrorTag_append (e : String) : hasErrorTag (errorTag ++ e) = true := by
  rw [hasErrorTag, String.data_append]
  exact list_isPrefixOf_append _ _

/-- C1 (amended): the synchronous `query` (limit `RECURSION_LIMIT = 11`) never
issues more than `(RECURSION_LIMIT - 1) / 2 = 5` tool invocations; `query_stream`
invokes the agent WITHOUT the configured limit, so only the library default
(`25`, hence up to 12 tool invocations) bounds it; and when the limit is
exhausted without a ready-to-answer signal, `query` still returns non-empty text
(the caught `GraphRecursionError` surfaced through the `except` handler) instead
of propagating an exception. -/
theorem agent_round_limit :
    (∀ decide answer, queryToolCalls decide answer ≤ (RECURSION_LIMIT - 1) / 2) ∧
    (∀ decide answer,
      queryStreamToolCalls decide answer ≤ (DEFAULT_RECURSION_LIMIT - 1) / 2) ∧
    (∀ decide answer n,
      reactRun decide answer RECURSION_LIMIT 0 = .recursionError n →
        queryAnswer decide answer = .ok (errorTag ++ "GraphRecursionError") ∧
        errorTag ++ "GraphRecursionError" ≠ "") := by
  refine ⟨?_, ?_, ?_⟩
  · intro decide answer
    have h := reactRun_toolCalls_le decide answer RECURSION_LIMIT 0
    simpa [queryToolCalls, RECURSION_LIMIT] using h
  · intro decide answer
    have h := reactRun_toolCalls_le decide answer DEFAULT_RECURSION_LIMIT 0
    simpa [queryStreamToolCalls, DEFAULT_RECURSION_LIMIT] using h
  · intro decide answer n h
    constructor
    · rw [queryAnswer, chainStreamRun, h]
      rfl
    · decide

/-- Witness for C1 (amended): with a controller that requests a tool at every round,
the `RECURSION_LIMIT` budget is exhausted after 5 tool invocations
(`reactRun ... = recursionError 5` holds by `rfl`) and `query` returns the
non-empty caught-error text. -/
theorem agent_round_limit_witness :
    queryAnswer greedyDecide "final" = .ok (errorTag ++ "GraphRecursionError") ∧
      errorTag ++ "GraphRecursionError" ≠ "" :=
  agent_round_limit.2.2 greedyDecide "final" 5 rfl

/-- C1 counterexample: in streaming mode the same always-call-a-tool controller
issues 12 tool invocations — more than the configured round limit of
`(RECURSION_LIMIT - 1) / 2 = 5` — because `query_stream`'s `invoke` call passes
no recursion-limit config. -/
theorem agent_round_limit_counterexample :
    queryStreamToolCalls greedyDecide "final" = 12 ∧
      ¬ queryStreamToolCalls greedyDecide "final" ≤ (RECURSION_LIMIT - 1) / 2 := by
  exact ⟨rfl, by decide⟩

/-- C2: every exception during answer generation is caught and surfaced textually,
never propagated: `query` returns (as `.ok`, not an exception) a string containing
the error text; `query_stream` with a failing `invoke` yields exactly the single
error fragment; and `query_stream` whose LLM stream raises yields exactly one
fragment carrying the error indicator (given the successful chunks do not start
with the indicator themselves). -/
theorem query_errors_surfaced (question e : String) (agent_result : AgentResult)
    (llm : String → List String × Option String) (chunks : List String)
    (hllm : llm (summarizationPrompt question (extract_tool_outputs agent_result))
              = (chunks, some e))
    (hclean : ∀ c ∈ chunks, hasErrorTag c = false) :
    (∀ cs : List String, query true (cs, some e) = .ok (errorTag ++ e)) ∧
    (∃ pre post : String, errorTag ++ e = pre ++ e ++ post) ∧
    query_stream true (.error e) llm question = .ok (StreamRun.mk [errorTag ++ e] [] 1) ∧
    (∃ run, query_stream true (.ok agent_result) llm question = .ok run ∧
       (run.fragments.filter (fun c => hasErrorTag c)).length = 1) := by
  refine ⟨fun cs => rfl, ⟨errorTag, "", by rw [String.append_empty]⟩, rfl, ?_⟩
  refine ⟨StreamRun.mk (chunks ++ [errorTag ++ e])
    [summarizationPrompt question (extract_tool_outputs agent_result)] 1, ?_, ?_⟩
  · simp [query_stream, hllm]
  · have h1 : chunks.filter (fun c => hasErrorTag c) = [] :=
      List.filter_eq_nil_iff.mpr (by intro c hc; simp [hclean c hc])
    simp [List.filter_append, h1, hasErrorTag_append]

/-- A concrete LLM stream collaborator that yields one chunk and then raises. -/
def llmFails : String → List String × Option String := fun _ => (["partial"], some "boom")

/-- Witness for C2 at concrete inputs: question `"Q"`, exception text `"boom"`,
an agent result without intermediate steps, and an LLM stream that yields
`"partial"` before raising. -/
theorem query_errors_surfaced_witness :
    (∀ cs : List String, query true (cs, some "boom") = .ok (errorTag ++ "boom")) ∧
    (∃ pre post : String, errorTag ++ "boom" = pre ++ "boom" ++ post) ∧
    query_stream true (.error "boom") llmFails "Q"
      = .ok (StreamRun.mk [errorTag ++ "boom"] [] 1) ∧
    (∃ run, query_stream true (.ok (AgentResult.mk none)) llmFails "Q" = .ok run ∧
       (run.fragments.filter (fun c => hasErrorTag c)).length = 1) :=
  query_errors_surfaced "Q" "boom" (AgentResult.mk none) llmFails ["partial"] rfl
    (by decide)

/-- C3: `query_stream` first runs the tool-invocation phase to completion through a
single non-incremental `invoke`, extracts the evidence transcript, issues exactly
one summarization request whose prompt is composed of the transcript plus the
original question, and (when the LLM stream succeeds) every yielded fragment is a
chunk of that single summarization response. -/
theorem stream_single_summarization (question : String) (agent_result : AgentResult)
    (llm : String → List String × Option String)
    (hok : (llm (summarizationPrompt question (extract_tool_outputs agent_result))).2
             = none) :
    ∃ run, query_stream true (.ok agent_result) llm question = .ok run ∧
      run.agentCalls = 1 ∧
      run.prompts = [summarizationPrompt question (extract_tool_outputs agent_result)] ∧
      summarizationPrompt question (extract_tool_outputs agent_result)
        = sumPromptPre ++ question ++ sumPromptMid
            ++ extract_tool_outputs agent_result ++ sumPromptPost ∧
      run.fragments
        = (llm (summarizationPrompt question (extract_tool_outputs agent_result))).1 := by
  refine ⟨StreamRun.mk
    (llm (summarizationPrompt question (extract_tool_outputs agent_result))).1
    [summarizationPrompt question (extract_tool_outputs agent_result)] 1, ?_, rfl, rfl, rfl, rfl⟩
  rcases hp : llm (summarizationPrompt question (extract_tool_outputs agent_result))
    with ⟨cs, err⟩
  rw [hp] at hok
  simp only at hok
  subst hok
  simp [query_stream, hp]

/-- A concrete LLM stream collaborator that yields two chunks and closes normally. -/
def llmTwoChunks : String → List String × Option String := fun _ => (["one", "two"], none)

/-- Witness for C3 at concrete inputs: an agent result without intermediate steps and
an LLM stream yielding `["one","two"]` without error. -/
theorem stream_single_summarization_witness :
    ∃ run, query_stream true (.ok (AgentResult.mk none)) llmTwoChunks "Q" = .ok run ∧
      run.agentCalls = 1 ∧
      run.prompts = [summarizationPrompt "Q" (extract_tool_outputs (AgentResult.mk none))] ∧
      summarizationPrompt "Q" (extract_tool_outputs (AgentResult.mk none))
        = sumPromptPre ++ "Q" ++ sumPromptMid
            ++ extract_tool_outputs (AgentResult.mk none) ++ sumPromptPost ∧
      run.fragments
        = (llmTwoChunks (summarizationPrompt "Q"
            (extract_tool_outputs (AgentResult.mk none)))).1 :=
  stream_single_summarization "Q" (AgentResult.mk none) llmTwoChunks rfl

/-- C4: invoking `query` or `query_stream` before initialization fails with the
not-initialized error (the `ValueError` raised before the `try` block, the spec's
`NotInitializedError`) — an `Except.error`, never an `.ok` textual answer, for
every possible chain stream, agent result and LLM collaborator. -/
theorem uninitialized_raises (chainStream : List String × Option String)
    (invoke : Except String AgentResult) (llm : String → List String × Option String)
    (question : String) :
    query false chainStream = .error .notInitialized ∧
      query_stream false invoke llm question = .error .notInitialized :=
  ⟨rfl, rfl⟩

/-- C10: on an agent result lacking the `"intermediate_steps"` key,
`_extract_tool_outputs` returns the empty string, so the single summarization
prompt `query_stream` sends to the LLM is the fixed template around the question
with no tool evidence between the delimiters. -/
theorem extract_without_steps (agent_result : AgentResult) (question : String)
    (llm : String → List String × Option String)
    (h : agent_result.intermediate_steps = none) :
    extract_tool_outputs agent_result = "" ∧
    summarizationPrompt question (extract_tool_outputs agent_result)
      = sumPromptPre ++ question ++ sumPromptMid ++ sumPromptPost ∧
    (∀ run, query_stream true (.ok agent_result) llm question = .ok run →
       run.prompts = [sumPromptPre ++ question ++ sumPromptMid ++ sumPromptPost]) := by
  have h0 : extract_tool_outputs agent_result = "" := by
    rw [extract_tool_outputs, h]
  have h1 : summarizationPrompt question (extract_tool_outputs agent_result)
      = sumPromptPre ++ question ++ sumPromptMid ++ sumPromptPost := by
    rw [h0, summarizationPrompt, String.append_empty]
  refine ⟨h0, h1, ?_⟩
  intro run hrun
  rw [query_stream] at hrun
  simp only [if_pos rfl] at hrun
  rcases hp : llm (summarizationPrompt question (extract_tool_outputs agent_result))
    with ⟨cs, _ | e⟩ <;>
    · rw [hp] at hrun
      simp at hrun
      rw [← hrun]
      simp [h1]

/-- Witness for C10 at concrete inputs: the stepless agent result and the two-chunk
LLM collaborator. -/
theorem extract_without_steps_witness :
    extract_tool_outputs (AgentResult.mk none) = "" ∧
    summarizationPrompt "Q" (extract_tool_outputs (AgentResult.mk none))
      = sumPromptPre ++ "Q" ++ sumPromptMid ++ sumPromptPost ∧
    (∀ run, query_stream true (.ok (AgentResult.mk none)) llmTwoChunks "Q" = .ok run →
       run.prompts = [sumPromptPre ++ "Q" ++ sumPromptMid ++ sumPromptPost]) :=
  extract_without_steps (AgentResult.mk none) "Q" llmTwoChunks rfl

/-! ### `PubMedRAG.initialize` (lines 73-113) and the global
`supabase_vs_retriever` (line 24) -/

/-- The persistent state touched by `PubMedRAG.initialize`: the module-global
`supabase_vs_retriever` and the fields `self.llm`, `self.rag_chain` (the locals
`st_model`, `embedding_model`, `vectorstore`, `retriever`, `retrieval_tool`,
`wiki_retriever` die with the call).  Constructed Python objects are modelled by
allocation identities drawn from the counter `fresh` (each constructor call takes
the next identity), so `some k` is a reference to the object allocated as `k`. -/
structure RAGState where
  fresh : Nat
  supabase_vs_retriever : Option Nat
  llm : Option Nat
  rag_chain : Option Nat
deriving DecidableEq

/-- `PubMedRAG.initialize`, in source order: it unconditionally constructs
`st_model`, `embedding_model` and `vectorstore` (3 allocations), rebinds the
GLOBAL `supabase_vs_retriever` to the fresh `vectorstore.as_retriever(...)`,
constructs `MyRetriever`, `retrieval_tool` and `wiki_retriever` (3 more
allocations, all dropped), then guards only the LLM (`if self.llm is None`) and
the agent chain (`if self.rag_chain is None`) behind idempotence checks. -/
def initPipeline (s : RAGState) : RAGState :=
  let retrieverId := s.fresh + 3
  let fresh1 := s.fresh + 7
  let llm1 : Option Nat := if s.llm = none then some fresh1 else s.llm
  let fresh2 := if s.llm = none then fresh1 + 1 else fresh1
  let chain1 : Option Nat := if s.rag_chain = none then some fresh2 else s.rag_chain
  let fresh3 := if s.rag_chain = none then fresh2 + 1 else fresh2
  RAGState.mk fresh3 (some retrieverId) llm1 chain1

/-- The process-start state: `supabase_vs_retriever = None` (line 24) and
`self.llm = self.rag_chain = None` from `__init__` (lines 69-70). -/
def initState : RAGState := RAGState.mk 0 none none none

/-- C5 counterexample: a second `initialize` call on the already-initialized
orchestrator is NOT a no-op — the resulting state differs (the shared global
retriever reference is rebound to a freshly constructed retriever). -/
theorem initPipeline_not_idempotent :
    initPipeline (initPipeline initState) ≠ initPipeline initState := by decide

/-- C5 (amended): on an already-initialized orchestrator (LLM and agent chain set,
and every stored reference older than the allocation counter), a second
`initialize` call leaves `self.llm` and `self.rag_chain` unchanged, but
re-creates the embedder, vector store and tools and rebinds the global
`supabase_vs_retriever` to the freshly constructed retriever — a reference
different from the one it held before. -/
theorem initPipeline_second_call (s : RAGState)
    (hl : s.llm ≠ none) (hc : s.rag_chain ≠ none)
    (hr : ∀ k, s.supabase_vs_retriever = some k → k < s.fresh) :
    (initPipeline s).llm = s.llm ∧ (initPipeline s).rag_chain = s.rag_chain ∧
    (initPipeline s).supabase_vs_retriever = some (s.fresh + 3) ∧
    (initPipeline s).supabase_vs_retriever ≠ s.supabase_vs_retriever := by
  refine ⟨by simp [initPipeline, hl], by simp [initPipeline, hc], by simp [initPipeline], ?_⟩
  rcases hv : s.supabase_vs_retriever with _ | k
  · simp [initPipeline]
  · have hk := hr k hv
    simp [initPipeline]
    omega

/-- Witness for C5 (amended) at the concrete state reached by one `initialize`
call from process start: the second call keeps the LLM and chain references and
rebinds the global retriever reference to a new allocation. -/
theorem initPipeline_second_call_witness :
    (initPipeline (initPipeline initState)).llm = (initPipeline initState).llm ∧
    (initPipeline (initPipeline initState)).rag_chain = (initPipeline initState).rag_chain ∧
    (initPipeline (initPipeline initState)).supabase_vs_retriever
      = some ((initPipeline initState).fresh + 3) ∧
    (initPipeline (initPipeline initState)).supabase_vs_retriever
      ≠ (initPipeline initState).supabase_vs_retriever :=
  initPipeline_second_call (initPipeline initState) (by decide) (by decide)
    (by intro k hk; simp [initPipeline, initState] at hk ⊢; omega)

end RagRepo
